import Mathlib

/-!
Shallow embedding of the tenant isolation and plan entitlement engine of a
multi-tenant business-management server.

Embedded source files:
- server/src/middleware/tenant.ts (tenantMiddleware and its prisma.$use hook)
- server/src/middleware/errorHandler.ts (PLAN_LEVELS, PLAN_MODULES,
  PLAN_LIMITS, checkPlanAccess, checkPlanLimits, checkPlanFeature,
  getSuggestedPlans, getSuggestedPlansForLimit, getSuggestedPlansForFeature)
- server/src/utils/AppError.ts (createAuditLog)

Database reads (prisma.tenant.findUnique, prisma.user.count, ...) are passed
in as explicit parameters; the current time (new Date()) is an explicit
integer parameter.
-/

namespace TenantEngine

/-- The PlanType enum of the Prisma schema, as used by the plan middleware. -/
inductive PlanType
  | SIMPLE
  | COMPOSITE
  | MANAGERIAL
deriving DecidableEq, Repr, Fintype

/-- PLAN_LEVELS from errorHandler.ts: numeric rank of each plan. -/
def PLAN_LEVELS : PlanType → Nat
  | .SIMPLE => 1
  | .COMPOSITE => 2
  | .MANAGERIAL => 3

/-- PLAN_MODULES from errorHandler.ts: the module list of each plan, in
source order. -/
def PLAN_MODULES : PlanType → List String
  | .SIMPLE =>
      ["dashboard", "crm", "clients", "basic_reports"]
  | .COMPOSITE =>
      ["dashboard", "crm", "clients", "projects", "tasks", "basic_reports",
       "project_reports", "file_management"]
  | .MANAGERIAL =>
      ["dashboard", "crm", "clients", "projects", "tasks", "billing",
       "invoices", "cash_flow", "transactions", "advanced_reports",
       "analytics", "file_management", "audit_logs", "user_management"]

/-- The features record inside each PLAN_LIMITS entry. -/
structure Features where
  projects : Bool
  billing : Bool
  advanced_reports : Bool
  api_access : Bool
deriving DecidableEq, Repr

/-- One PLAN_LIMITS entry: resource ceilings (-1 means unlimited) and
feature flags. -/
structure Limits where
  maxUsers : Int
  maxClients : Int
  maxProjects : Int
  maxStorage : Int
  features : Features
deriving DecidableEq, Repr

/-- PLAN_LIMITS from errorHandler.ts. -/
def PLAN_LIMITS : PlanType → Limits
  | .SIMPLE =>
      { maxUsers := 3
        maxClients := 50
        maxProjects := 0
        maxStorage := 1024 * 1024 * 100
        features :=
          { projects := false
            billing := false
            advanced_reports := false
            api_access := false } }
  | .COMPOSITE =>
      { maxUsers := 10
        maxClients := 200
        maxProjects := 100
        maxStorage := 1024 * 1024 * 500
        features :=
          { projects := true
            billing := false
            advanced_reports := false
            api_access := true } }
  | .MANAGERIAL =>
      { maxUsers := -1
        maxClients := -1
        maxProjects := -1
        maxStorage := 1024 * 1024 * 1024 * 5
        features :=
          { projects := true
            billing := true
            advanced_reports := true
            api_access := true } }

/-- Key insertion order of the PLAN_MODULES / PLAN_LIMITS / PLAN_LEVELS
object literals, as traversed by Object.entries. -/
def planOrder : List PlanType := [.SIMPLE, .COMPOSITE, .MANAGERIAL]

/-- The resourceType union of checkPlanLimits. -/
inductive ResourceType
  | users
  | clients
  | projects
  | storage
deriving DecidableEq, Repr, Fintype

/-- The string name of a resource type, as interpolated into the denial
payload. -/
def resourceName : ResourceType → String
  | .users => "users"
  | .clients => "clients"
  | .projects => "projects"
  | .storage => "storage"

/-- The ceiling that checkPlanLimits selects from a PLAN_LIMITS entry for
each resource type. -/
def limitFor (l : Limits) : ResourceType → Int
  | .users => l.maxUsers
  | .clients => l.maxClients
  | .projects => l.maxProjects
  | .storage => l.maxStorage

/-- The feature keys of PLAN_LIMITS.SIMPLE.features. -/
inductive FeatureName
  | projects
  | billing
  | advanced_reports
  | api_access
deriving DecidableEq, Repr, Fintype

/-- Selects a feature flag from a features record. -/
def featureFor (f : Features) : FeatureName → Bool
  | .projects => f.projects
  | .billing => f.billing
  | .advanced_reports => f.advanced_reports
  | .api_access => f.api_access

/-- The string name of a feature, as interpolated into the denial payload. -/
def featureName : FeatureName → String
  | .projects => "projects"
  | .billing => "billing"
  | .advanced_reports => "advanced_reports"
  | .api_access => "api_access"

/-! ### Tenant Scoping Interceptor (tenant.ts, prisma.$use hook) -/

/-- A JavaScript object holding string-valued fields (a where clause or a
record payload), as a key/value list without duplicate keys. -/
abbrev JsObj := List (String × String)

/-- JavaScript property assignment obj[k] = v: overwrites the value of an
existing key in place, otherwise appends the key. -/
def setField : JsObj → String → String → JsObj
  | [], k, v => [(k, v)]
  | (k₀, v₀) :: rest, k, v =>
      if k₀ = k then (k, v) :: rest else (k₀, v₀) :: setField rest k v

/-- JavaScript property read obj[k]. -/
def getField : JsObj → String → Option String
  | [], _ => none
  | (k₀, v₀) :: rest, k => if k₀ = k then some v₀ else getField rest k

/-- The params.args.data argument of a create or createMany call. Prisma
passes a single record object for create and an array of record objects for
createMany. In JavaScript, the assignment data[k] = v on an array sets a
named property on the array object itself and leaves every element
untouched. -/
inductive DataArg
  | record (fields : JsObj)
  | records (rows : List JsObj)
deriving DecidableEq, Repr

/-- The prisma middleware actions handled by the hook in tenant.ts. -/
inductive Action
  | findUnique
  | findFirst
  | findMany
  | create
  | createMany
  | update
  | updateMany
  | delete
  | deleteMany
deriving DecidableEq, Repr, Fintype

/-- The params argument of a prisma middleware: model name, action, and the
where and data members of params.args (none models an absent member). -/
structure Params where
  model : String
  action : Action
  whereArg : Option JsObj
  dataArg : Option DataArg
deriving DecidableEq, Repr

/-- The tenantModels allow-list inside the prisma.$use hook of tenant.ts. -/
def tenantModels : List String :=
  ["User", "Client", "Project", "Task", "Invoice", "Transaction", "AuditLog"]

/-- The prisma.$use hook registered by tenantMiddleware for one request,
with the tenantId it captured. Returns none where the JavaScript would
throw a TypeError (setting a property on an undefined where object in the
findUnique / findFirst branch); every other path rewrites params and
passes them on.

Faithfulness notes, matching tenant.ts line by line:
- findUnique / findFirst: params.args.where[tenantId] = tenantId with no
  guard on params.args.where;
- findMany, update / updateMany, delete / deleteMany: a missing args.where
  is first initialised to the empty object, then overwritten;
- create / createMany: guarded by if (params.args.data). When data is a
  single record the assignment overwrites its tenantId field; when data is
  an array (createMany) the assignment lands on the array object and the
  rows keep whatever tenantId the caller supplied. -/
def applyTenantScope (tenantId : String) (p : Params) : Option Params :=
  if p.model ∈ tenantModels then
    match p.action with
    | .findUnique | .findFirst =>
        match p.whereArg with
        | some w => some { p with whereArg := some (setField w "tenantId" tenantId) }
        | none => none
    | .findMany =>
        some { p with whereArg := some (setField (p.whereArg.getD []) "tenantId" tenantId) }
    | .create | .createMany =>
        match p.dataArg with
        | some (.record fields) =>
            some { p with dataArg := some (.record (setField fields "tenantId" tenantId)) }
        | some (.records rows) =>
            some { p with dataArg := some (.records rows) }
        | none => some p
    | .update | .updateMany | .delete | .deleteMany =>
        some { p with whereArg := some (setField (p.whereArg.getD []) "tenantId" tenantId) }
  else
    some p

/-- The shared module-level PrismaClient of tenant.ts accumulates one
prisma.$use hook per request that has passed tenantMiddleware, in
registration order; a query then flows through every registered hook
before reaching the engine. The list holds the tenantId captured by each
registered hook, oldest first. -/
def runMiddlewares (registered : List String) (p : Params) : Option Params :=
  match registered with
  | [] => some p
  | t :: rest => (applyTenantScope t p).bind (runMiddlewares rest)

/-! ### Entitlement Evaluator (errorHandler.ts plan middleware) -/

/-- The tenant row selected by checkPlanAccess: id, planType, isActive,
expiresAt (none models a null expiresAt). Timestamps are integers. -/
structure TenantRec where
  id : String
  planType : PlanType
  isActive : Bool
  expiresAt : Option Int
deriving DecidableEq, Repr

/-- The outcome of one plan-middleware invocation: next() or one of the
structured JSON denials, each carrying exactly the fields the source
serialises. -/
inductive CheckOutcome
  | ok
  | invalidToken
  | invalidAuth
  | tenantNotFound
  | tenantInactive
  | planExpired (expiresAt : Int)
  | planAccessDenied (currentPlan : PlanType) (requiredModule : String)
      (allowedModules : List String) (suggestedPlans : List PlanType)
  | planLimitExceeded (currentPlan : PlanType) (resourceType : String)
      (currentCount : Int) (maxAllowed : Int) (suggestedPlans : List PlanType)
  | featureNotAvailable (currentPlan : PlanType) (feature : String)
      (suggestedPlans : List PlanType)
deriving DecidableEq, Repr

/-- The code string of each denial payload, as written in errorHandler.ts. -/
def denialCode : CheckOutcome → Option String
  | .ok => none
  | .invalidToken => some "INVALID_TOKEN"
  | .invalidAuth => some "INVALID_AUTH"
  | .tenantNotFound => some "TENANT_NOT_FOUND"
  | .tenantInactive => some "TENANT_INACTIVE"
  | .planExpired _ => some "PLAN_EXPIRED"
  | .planAccessDenied _ _ _ _ => some "PLAN_ACCESS_DENIED"
  | .planLimitExceeded _ _ _ _ _ => some "PLAN_LIMIT_EXCEEDED"
  | .featureNotAvailable _ _ _ => some "FEATURE_NOT_AVAILABLE"

/-- The HTTP status each outcome is sent with in errorHandler.ts. -/
def statusOf : CheckOutcome → Nat
  | .ok => 200
  | .invalidToken => 401
  | .invalidAuth => 401
  | .tenantNotFound => 404
  | .tenantInactive => 403
  | .planExpired _ => 403
  | .planAccessDenied _ _ _ _ => 403
  | .planLimitExceeded _ _ _ _ _ => 403
  | .featureNotAvailable _ _ _ => 403

/-- getSuggestedPlans of errorHandler.ts: the plans whose PLAN_MODULES list
includes the required module, in Object.entries order. -/
def getSuggestedPlans (requiredModule : String) : List PlanType :=
  planOrder.filter (fun plan => requiredModule ∈ PLAN_MODULES plan)

/-- getSuggestedPlansForLimit of errorHandler.ts: the plans whose
PLAN_LEVELS rank is strictly above the current plan (the resourceType
argument is ignored by the source body). -/
def getSuggestedPlansForLimit (_resourceType : ResourceType)
    (currentPlan : PlanType) : List PlanType :=
  planOrder.filter (fun plan => PLAN_LEVELS currentPlan < PLAN_LEVELS plan)

/-- getSuggestedPlansForFeature of errorHandler.ts: the plans whose
features record enables the feature, in Object.entries order. -/
def getSuggestedPlansForFeature (feature : FeatureName) : List PlanType :=
  planOrder.filter (fun plan => featureFor (PLAN_LIMITS plan).features feature)

/-- checkPlanAccess(requiredModule) of errorHandler.ts. Inputs beyond the
module: req.user?.tenantId, the tenant row returned by
prisma.tenant.findUnique (none models a missing row), and the current time
now (new Date()). Branch order follows the source: missing tenantId, then
missing tenant, then isActive, then expiry, then module membership. -/
def checkPlanAccess (requiredModule : String) (userTenantId : Option String)
    (dbTenant : Option TenantRec) (now : Int) : CheckOutcome :=
  match userTenantId with
  | none => .invalidToken
  | some _ =>
      match dbTenant with
      | none => .tenantNotFound
      | some tenant =>
          if tenant.isActive = false then
            .tenantInactive
          else
            match tenant.expiresAt with
            | some e =>
                if e < now then
                  .planExpired e
                else if requiredModule ∈ PLAN_MODULES tenant.planType then
                  .ok
                else
                  .planAccessDenied tenant.planType requiredModule
                    (PLAN_MODULES tenant.planType) (getSuggestedPlans requiredModule)
            | none =>
                if requiredModule ∈ PLAN_MODULES tenant.planType then
                  .ok
                else
                  .planAccessDenied tenant.planType requiredModule
                    (PLAN_MODULES tenant.planType) (getSuggestedPlans requiredModule)

/-- checkPlanLimits(resourceType) of errorHandler.ts. Inputs beyond the
resource type: req.user?.tenantId, req.tenant (the snapshot attached by a
previous checkPlanAccess; none models an absent snapshot), and the current
count the prisma count or findMany query returns for the tenant. The body
never reads isActive, expiresAt, or the clock. -/
def checkPlanLimits (resourceType : ResourceType) (userTenantId : Option String)
    (reqTenant : Option TenantRec) (currentCount : Int) : CheckOutcome :=
  match reqTenant, userTenantId with
  | some tenant, some _ =>
      let maxAllowed := limitFor (PLAN_LIMITS tenant.planType) resourceType
      if maxAllowed ≠ -1 ∧ maxAllowed ≤ currentCount then
        .planLimitExceeded tenant.planType (resourceName resourceType)
          currentCount maxAllowed (getSuggestedPlansForLimit resourceType tenant.planType)
      else
        .ok
  | _, _ => .invalidAuth

/-- checkPlanFeature(feature) of errorHandler.ts. Inputs beyond the
feature: req.tenant (none models an absent snapshot). The body never reads
isActive, expiresAt, or the clock. -/
def checkPlanFeature (feature : FeatureName)
    (reqTenant : Option TenantRec) : CheckOutcome :=
  match reqTenant with
  | none => .invalidAuth
  | some tenant =>
      if featureFor (PLAN_LIMITS tenant.planType).features feature = false then
        .featureNotAvailable tenant.planType (featureName feature)
          (getSuggestedPlansForFeature feature)
      else
        .ok

/-! ### Audit Recorder (AppError.ts createAuditLog) -/

/-- One audit entry, as assembled into the prisma.auditLog.create data. -/
structure AuditEntry where
  userId : String
  tenantId : String
  action : String
  resourceType : String
  resourceId : String
  details : Option String
deriving DecidableEq, Repr

/-- createAuditLog of AppError.ts. The append argument models the awaited
prisma.auditLog.create call, which may reject with an error string. The
try/catch converts a rejection into a local console.error line and returns
normally; the result is the list of console lines emitted, inside Except to
show that no error escapes the function. -/
def createAuditLog (append : AuditEntry → Except String Unit)
    (entry : AuditEntry) : Except String (List String) :=
  match append entry with
  | .ok () => .ok []
  | .error e => .ok ["Erro ao criar log de auditoria: " ++ e]

/-- A business action that fires createAuditLog after computing its result,
as the route handlers do: the action result is produced first, then the
audit write runs, and an error escaping createAuditLog would replace the
result with that error. -/
def actionWithAudit {α : Type} (result : α)
    (append : AuditEntry → Except String Unit) (entry : AuditEntry) :
    Except String α :=
  match createAuditLog append entry with
  | .ok _ => .ok result
  | .error e => .error e

/-! ### The denial-code taxonomy of the specification -/

/-- Modelled from the spec: the denial payload taxonomy of the EXTERNAL
INTERFACES section, which enumerates the codes INVALID_TOKEN,
TENANT_INACTIVE, PLAN_EXPIRED, PLAN_ACCESS_DENIED, PLAN_LIMIT_EXCEEDED,
FEATURE_NOT_AVAILABLE and TENANT_NOT_FOUND. Used only to compare the code
INVALID_AUTH emitted by the source against the codes the spec enumerates. -/
def specDenialCodes : List String :=
  ["INVALID_TOKEN", "TENANT_INACTIVE", "PLAN_EXPIRED", "PLAN_ACCESS_DENIED",
   "PLAN_LIMIT_EXCEEDED", "FEATURE_NOT_AVAILABLE", "TENANT_NOT_FOUND"]

/-- Pointwise ordering of feature records: every flag enabled on the left
is also enabled on the right. -/
def featuresLE (a b : Features) : Bool :=
  (!a.projects || b.projects) && (!a.billing || b.billing) &&
  (!a.advanced_reports || b.advanced_reports) && (!a.api_access || b.api_access)

/-! ### Claims -/

/-- Claim C1, code-bug evaluation. A single create under principal tenant
T1 does overwrite a caller-supplied tenantId T2 in the record payload, but
a createMany whose data is an array of rows leaves every row unchanged:
the assignment params.args.data[tenantId] = tenantId lands on the array
object, not on its elements, so the scoped operation still references
tenant T2 distinct from T1. -/
theorem C1_createMany_keeps_caller_tenant :
    applyTenantScope "T1"
      { model := "Client", action := .create, whereArg := none,
        dataArg := some (.record [("name", "acme"), ("tenantId", "T2")]) } =
      some
        { model := "Client", action := .create, whereArg := none,
          dataArg := some (.record [("name", "acme"), ("tenantId", "T1")]) } ∧
    applyTenantScope "T1"
      { model := "Client", action := .createMany, whereArg := none,
        dataArg := some (.records [[("name", "acme"), ("tenantId", "T2")]]) } =
      some
        { model := "Client", action := .createMany, whereArg := none,
          dataArg := some (.records [[("name", "acme"), ("tenantId", "T2")]]) } ∧
    ("T2" : String) ≠ "T1" := by
  refine ⟨rfl, rfl, by decide⟩

/-- Claim C2, code-bug evaluation. tenantMiddleware registers a fresh
prisma.$use hook on the module-level shared PrismaClient on every request.
After request A (tenant T1) and then request B (tenant T2) have both passed
the middleware, a findMany issued by request A flows through both
registered hooks and reaches the engine carrying where.tenantId = T2, the
tenant of the other request. -/
theorem C2_shared_client_applies_other_request_tenant :
    runMiddlewares ["T1", "T2"]
      { model := "Client", action := .findMany, whereArg := none, dataArg := none } =
      some
        { model := "Client", action := .findMany,
          whereArg := some [("tenantId", "T2")], dataArg := none } ∧
    ("T2" : String) ≠ "T1" := by
  refine ⟨rfl, by decide⟩

/-- Claim C3, counterexample. Module monotonicity fails at MANAGERIAL:
basic_reports belongs to the SIMPLE module list but not the MANAGERIAL
one, and project_reports belongs to the COMPOSITE list but not the
MANAGERIAL one, although MANAGERIAL ranks strictly above both. -/
theorem C3_module_monotonicity_fails :
    (PLAN_LEVELS .SIMPLE < PLAN_LEVELS .MANAGERIAL ∧
      "basic_reports" ∈ PLAN_MODULES .SIMPLE ∧
      "basic_reports" ∉ PLAN_MODULES .MANAGERIAL) ∧
    (PLAN_LEVELS .COMPOSITE < PLAN_LEVELS .MANAGERIAL ∧
      "project_reports" ∈ PLAN_MODULES .COMPOSITE ∧
      "project_reports" ∉ PLAN_MODULES .MANAGERIAL) := by decide

/-- Claim C3, amended. Feature-flag monotonicity holds for every ordered
tier pair, and the SIMPLE module list is a strict subset of the COMPOSITE
one; but the module lists of both SIMPLE and COMPOSITE are not contained
in the MANAGERIAL list, so module monotonicity holds only for the pair
SIMPLE, COMPOSITE. -/
theorem C3_monotonicity_amended :
    (∀ t1 t2 : PlanType, PLAN_LEVELS t1 < PLAN_LEVELS t2 →
        featuresLE (PLAN_LIMITS t1).features (PLAN_LIMITS t2).features = true) ∧
    (∀ m ∈ PLAN_MODULES PlanType.SIMPLE, m ∈ PLAN_MODULES PlanType.COMPOSITE) ∧
    (∃ m ∈ PLAN_MODULES PlanType.COMPOSITE, m ∉ PLAN_MODULES PlanType.SIMPLE) ∧
    ¬ (∀ m ∈ PLAN_MODULES PlanType.SIMPLE, m ∈ PLAN_MODULES PlanType.MANAGERIAL) ∧
    ¬ (∀ m ∈ PLAN_MODULES PlanType.COMPOSITE, m ∈ PLAN_MODULES PlanType.MANAGERIAL) := by
  decide

/-- Claim C3, witness for the amended theorem at a concrete tier pair. -/
theorem C3_monotonicity_amended_witness :
    featuresLE (PLAN_LIMITS PlanType.SIMPLE).features
      (PLAN_LIMITS PlanType.MANAGERIAL).features = true :=
  C3_monotonicity_amended.1 .SIMPLE .MANAGERIAL (by decide)

/-- Claim C4, counterexample. A tenant snapshot whose expiry timestamp 0
lies in the past (relative to any positive clock) is passed to the limit
check, and a snapshot that is both inactive and expired is passed to the
feature check: neither check returns TENANT_INACTIVE or PLAN_EXPIRED —
the limit check answers ok (50-client ceiling not reached) and the
feature check answers ok (projects enabled on COMPOSITE), because neither
body reads isActive, expiresAt, or the clock. -/
theorem C4_limits_ignore_lifecycle :
    checkPlanLimits .clients (some "u1")
      (some { id := "T1", planType := .SIMPLE, isActive := true, expiresAt := some 0 }) 0 =
      .ok ∧
    checkPlanFeature .projects
      (some { id := "T1", planType := .COMPOSITE, isActive := false, expiresAt := some 0 }) =
      .ok := by
  refine ⟨rfl, rfl⟩

/-- Claim C4, amended. Only the module-access check re-validates tenant
lifecycle: checkPlanAccess returns TENANT_INACTIVE for an inactive tenant
and PLAN_EXPIRED carrying the expiry timestamp for an expired one, before
any module logic; checkPlanLimits and checkPlanFeature perform no
lifecycle validation at all — they can never return either lifecycle
outcome, whatever snapshot they receive. -/
theorem C4_lifecycle_amended :
    (∀ (m : String) (uid : String) (t : TenantRec) (now : Int),
        t.isActive = false →
        checkPlanAccess m (some uid) (some t) now = .tenantInactive) ∧
    (∀ (m : String) (uid : String) (t : TenantRec) (now e : Int),
        t.isActive = true → t.expiresAt = some e → e < now →
        checkPlanAccess m (some uid) (some t) now = .planExpired e) ∧
    (∀ (r : ResourceType) (uid : String) (t : TenantRec) (c : Int),
        checkPlanLimits r (some uid) (some t) c ≠ .tenantInactive ∧
        ∀ e : Int, checkPlanLimits r (some uid) (some t) c ≠ .planExpired e) ∧
    (∀ (f : FeatureName) (t : TenantRec),
        checkPlanFeature f (some t) ≠ .tenantInactive ∧
        ∀ e : Int, checkPlanFeature f (some t) ≠ .planExpired e) := by
  refine ⟨?_, ?_, ?_, ?_⟩
  · intro m uid t now h
    simp [checkPlanAccess, h]
  · intro m uid t now e hact hexp hlt
    simp [checkPlanAccess, hact, hexp, hlt]
  · intro r uid t c
    refine ⟨?_, ?_⟩
    · simp only [checkPlanLimits]
      split <;> simp
    · intro e
      simp only [checkPlanLimits]
      split <;> simp
  · intro f t
    refine ⟨?_, ?_⟩
    · simp only [checkPlanFeature]
      split <;> simp
    · intro e
      simp only [checkPlanFeature]
      split <;> simp

/-- Claim C4, witness for the amended theorem at concrete inputs. -/
theorem C4_lifecycle_amended_witness :
    checkPlanAccess "clients" (some "u1")
      (some { id := "T1", planType := .SIMPLE, isActive := false, expiresAt := none }) 0 =
      .tenantInactive :=
  C4_lifecycle_amended.1 "clients" "u1"
    { id := "T1", planType := .SIMPLE, isActive := false, expiresAt := none } 0 rfl

/-- Claim C5: a ceiling of -1 always allows; a ceiling N distinct from -1
denies with PLAN_LIMIT_EXCEEDED exactly when the current count reaches N
and allows below N; the SIMPLE tenant with 50 of its 50 allowed clients
is denied with currentCount 50 and maxAllowed 50, while 49 clients pass. -/
theorem C5_resource_limit_semantics :
    (∀ (r : ResourceType) (uid : String) (t : TenantRec) (c : Int),
        limitFor (PLAN_LIMITS t.planType) r = -1 →
        checkPlanLimits r (some uid) (some t) c = .ok) ∧
    (∀ (r : ResourceType) (uid : String) (t : TenantRec) (c N : Int),
        limitFor (PLAN_LIMITS t.planType) r = N → N ≠ -1 →
        (N ≤ c →
          checkPlanLimits r (some uid) (some t) c =
            .planLimitExceeded t.planType (resourceName r) c N
              (getSuggestedPlansForLimit r t.planType)) ∧
        (c < N → checkPlanLimits r (some uid) (some t) c = .ok)) ∧
    checkPlanLimits .clients (some "u1")
      (some { id := "T1", planType := .SIMPLE, isActive := true, expiresAt := none }) 50 =
      .planLimitExceeded .SIMPLE "clients" 50 50 [.COMPOSITE, .MANAGERIAL] ∧
    checkPlanLimits .clients (some "u1")
      (some { id := "T1", planType := .SIMPLE, isActive := true, expiresAt := none }) 49 =
      .ok := by
  refine ⟨?_, ?_, by decide, by decide⟩
  · intro r uid t c h
    simp [checkPlanLimits, h]
  · intro r uid t c N hN hne
    refine ⟨?_, ?_⟩
    · intro hle
      simp [checkPlanLimits, hN, hne, hle]
    · intro hlt
      simp [checkPlanLimits, hN, hne, not_le.mpr hlt]

/-- Claim C5, witness at concrete inputs: the unlimited MANAGERIAL user
ceiling allows a count of 1000, and the SIMPLE client ceiling of 50
denies a count of 50 and allows a count of 49. -/
theorem C5_resource_limit_semantics_witness :
    checkPlanLimits .users (some "u1")
      (some { id := "T3", planType := .MANAGERIAL, isActive := true, expiresAt := none }) 1000 =
      .ok :=
  C5_resource_limit_semantics.1 .users "u1"
    { id := "T3", planType := .MANAGERIAL, isActive := true, expiresAt := none } 1000 rfl

/-- Claim C6, counterexample. The zero ceiling of SIMPLE projects and the
reached positive ceiling of SIMPLE clients both deny with the same code
PLAN_LIMIT_EXCEEDED: no distinct denial code marks the zero-ceiling case. -/
theorem C6_zero_ceiling_same_code :
    limitFor (PLAN_LIMITS .SIMPLE) .projects = 0 ∧
    denialCode (checkPlanLimits .projects (some "u1")
      (some { id := "T1", planType := .SIMPLE, isActive := true, expiresAt := none }) 0) =
      some "PLAN_LIMIT_EXCEEDED" ∧
    limitFor (PLAN_LIMITS .SIMPLE) .clients = 50 ∧
    denialCode (checkPlanLimits .clients (some "u1")
      (some { id := "T1", planType := .SIMPLE, isActive := true, expiresAt := none }) 50) =
      some "PLAN_LIMIT_EXCEEDED" := by
  decide

/-- Claim C6, amended. Inside the resource-limit check, a ceiling of zero
and a reached positive ceiling produce the same denial code
PLAN_LIMIT_EXCEEDED; the zero-ceiling case is distinguishable only through
the maxAllowed field of the payload, which is 0 there. A distinct code,
FEATURE_NOT_AVAILABLE, arises only from the separate feature-flag check. -/
theorem C6_denial_code_amended :
    (∀ (uid : String) (t : TenantRec) (c : Int), t.planType = .SIMPLE → 0 ≤ c →
        checkPlanLimits .projects (some uid) (some t) c =
          .planLimitExceeded .SIMPLE "projects" c 0 [.COMPOSITE, .MANAGERIAL]) ∧
    denialCode (checkPlanLimits .projects (some "u1")
      (some { id := "T1", planType := .SIMPLE, isActive := true, expiresAt := none }) 0) =
      denialCode (checkPlanLimits .clients (some "u1")
        (some { id := "T1", planType := .SIMPLE, isActive := true, expiresAt := none }) 50) ∧
    checkPlanFeature .projects
      (some { id := "T1", planType := .SIMPLE, isActive := true, expiresAt := none }) =
      .featureNotAvailable .SIMPLE "projects" [.COMPOSITE, .MANAGERIAL] := by
  refine ⟨?_, by decide, by decide⟩
  intro uid t c hplan hc
  simp [checkPlanLimits, hplan, limitFor, PLAN_LIMITS, hc,
    getSuggestedPlansForLimit, planOrder, PLAN_LEVELS, resourceName]

/-- Claim C6, witness for the amended theorem at a concrete count. -/
theorem C6_denial_code_amended_witness :
    checkPlanLimits .projects (some "u1")
      (some { id := "T1", planType := .SIMPLE, isActive := true, expiresAt := none }) 7 =
      .planLimitExceeded .SIMPLE "projects" 7 0 [.COMPOSITE, .MANAGERIAL] :=
  C6_denial_code_amended.1 "u1"
    { id := "T1", planType := .SIMPLE, isActive := true, expiresAt := none } 7 rfl
    (by decide)

/-- Claim C7, counterexample. File is a tenant-scoped domain entity (its
rows carry a tenantId, and checkPlanLimits queries it with an explicit
tenantId filter), yet File is absent from the tenantModels allow-list, so
a File read that names a foreign tenant T2 passes through the hook of a
T1 request completely unchanged. -/
theorem C7_file_model_not_scoped :
    "File" ∉ tenantModels ∧
    applyTenantScope "T1"
      { model := "File", action := .findMany,
        whereArg := some [("tenantId", "T2")], dataArg := none } =
      some
        { model := "File", action := .findMany,
          whereArg := some [("tenantId", "T2")], dataArg := none } ∧
    ("T2" : String) ≠ "T1" := by
  refine ⟨by decide, rfl, by decide⟩

/-- Claim C7, amended. The rewrite applies, with no caller special-case
(the hook takes no caller identity at all), to exactly the seven
enumerated models User, Client, Project, Task, Invoice, Transaction and
AuditLog; the Tenant record is excluded as the claim states, but so is
File, a tenant-scoped domain entity, so the enumeration does not cover
every tenant-scoped entity type. -/
theorem C7_scoping_amended :
    (∀ (m : String) (tid : String) (w : JsObj), m ∈ tenantModels →
        applyTenantScope tid
          { model := m, action := .findMany, whereArg := some w, dataArg := none } =
          some
            { model := m, action := .findMany,
              whereArg := some (setField w "tenantId" tid), dataArg := none }) ∧
    "Tenant" ∉ tenantModels ∧
    "File" ∉ tenantModels := by
  refine ⟨?_, by decide, by decide⟩
  intro m tid w hm
  simp [applyTenantScope, hm]

/-- Claim C7, witness for the amended theorem at a concrete model. -/
theorem C7_scoping_amended_witness :
    applyTenantScope "T1"
      { model := "Client", action := .findMany, whereArg := some [], dataArg := none } =
      some
        { model := "Client", action := .findMany,
          whereArg := some [("tenantId", "T1")], dataArg := none } :=
  C7_scoping_amended.1 "Client" "T1" [] (by decide)

/-- Claim C8: a SIMPLE tenant requesting the projects module is denied
with PLAN_ACCESS_DENIED carrying the current plan, the requested module,
the full SIMPLE module list and suggestedPlans COMPOSITE, MANAGERIAL; and
a plan is suggested by getSuggestedPlans exactly when its module list
includes the requested module. -/
theorem C8_tier1_projects_denied :
    checkPlanAccess "projects" (some "u1")
      (some { id := "T1", planType := .SIMPLE, isActive := true, expiresAt := none })
      1700000000 =
      .planAccessDenied .SIMPLE "projects"
        ["dashboard", "crm", "clients", "basic_reports"]
        [.COMPOSITE, .MANAGERIAL] ∧
    (∀ p : PlanType, p ∈ getSuggestedPlans "projects" ↔ "projects" ∈ PLAN_MODULES p) := by
  decide

/-- Claim C9: a failing audit append is swallowed by the try/catch of
createAuditLog, which always returns normally (emitting at most a local
console line), and the triggering business action completes with its own
result whether or not the append succeeds. -/
theorem C9_audit_failure_never_propagates :
    ∀ (append : AuditEntry → Except String Unit) (entry : AuditEntry)
      (α : Type) (result : α),
      (∃ logs, createAuditLog append entry = .ok logs) ∧
      actionWithAudit result append entry = .ok result := by
  intro append entry α result
  have h : ∃ logs, createAuditLog append entry = .ok logs := by
    unfold createAuditLog
    cases happ : append entry with
    | ok u => cases u; exact ⟨[], rfl⟩
    | error e => exact ⟨_, rfl⟩
  refine ⟨h, ?_⟩
  obtain ⟨logs, hl⟩ := h
  unfold actionWithAudit
  rw [hl]

/-- Claim C10: without the req.tenant snapshot that checkPlanAccess
attaches, the limit check and the feature check evaluate nothing and
answer 401 with code INVALID_AUTH, a code that the denial taxonomy of the
specification does not list. -/
theorem C10_missing_snapshot_invalid_auth :
    (∀ (r : ResourceType) (uid : Option String) (c : Int),
        checkPlanLimits r uid none c = .invalidAuth) ∧
    (∀ f : FeatureName, checkPlanFeature f none = .invalidAuth) ∧
    statusOf .invalidAuth = 401 ∧
    denialCode .invalidAuth = some "INVALID_AUTH" ∧
    "INVALID_AUTH" ∉ specDenialCodes := by
  refine ⟨?_, ?_, rfl, rfl, by decide⟩
  · intro r uid c
    cases uid <;> rfl
  · intro f
    rfl

/-- Claim C10, witness at concrete inputs. -/
theorem C10_missing_snapshot_invalid_auth_witness :
    checkPlanLimits .clients (some "u1") none 0 = .invalidAuth :=
  C10_missing_snapshot_invalid_auth.1 .clients (some "u1") 0

end TenantEngine
